import Mathlib

/-!
Shallow embedding of src/inc/FunctionBuffer.hpp: a fixed-capacity,
type-erased callable container FunctionBuffer<R(Args...)> with a 40-byte
aligned local buffer, a FunctionConcept interface, a FunctionModel<F>
adapter placed into the buffer with placement new, and a pointer m_func
that is either null or the buffer address.

Modelling decisions, each tied to the source:
- A user callable is a function from the argument pack to Except, so
  that errors it raises can be observed; it also carries an identity
  used to observe destructor side effects, and the compile-time value
  sizeof(FunctionModel<F>) used by the static_assert on line 103.
- The buffer byte content is modelled as the FunctionModel value last
  stored there; std::copy of the 40 bytes (lines 152, 161, 172) is
  modelled as copying that value.
- The handle m_func is a Bool: true means it points at buffer_address
  (the only non-null value the code ever assigns), false means nullptr.
- A ghost field occupied records whether a live adapter object
  currently sits in the buffer: set by placement new, cleared by an
  explicit call of the virtual destructor, transferred away from the
  source by a move (the spec treats a moved-from box as empty).
- Operations return the list of lifetime events they perform, in
  order, so that destructor ordering claims can be stated.
-/

namespace FunctionBufferSpec

/-- Capacity of the local buffer in bytes, MAX_BUFFER_SIZE on line 31. -/
def MAX_BUFFER_SIZE : Nat := 40

/-- A concrete user callable of signature R(Args...): its behavior on the
argument pack, possibly raising an error of type ε; an identity used to
observe destructor side effects; and the value sizeof(FunctionModel<F>)
for this F, a compile-time constant in the source. -/
structure Callable (α ε ρ : Type) where
  fn : α → Except ε ρ
  id : Nat
  sizeofModel : Nat

/-- FunctionModel<F> for a non-reference type F (lines 61-82): holds its own
value m_functor of type F. The deduction path where F is a reference
type is modelled in the LValuePath namespace below. -/
structure FunctionModel (α ε ρ : Type) where
  m_functor : Callable α ε ρ

/-- FunctionModel call operator (lines 77-80): forwards the argument pack to
the held callable and returns its result verbatim, with no handling of
errors the callable raises. -/
def FunctionModel.call (m : FunctionModel α ε ρ) (a : α) : Except ε ρ :=
  m.m_functor.fn a

/-- Lifetime events observable from outside the buffer: a run of the adapter
destructor (which runs the destructor of the held callable with the given
identity), or a placement new of an adapter holding the given callable. -/
inductive Event where
  | dtor (id : Nat)
  | placed (id : Nat)
  deriving DecidableEq

/-- Errors surfaced by the call operator: the runtime_error thrown on a null
handle (line 122), or an error raised by the wrapped callable, carried
unchanged; the constructor fromCallable only records which channel
raised it, the payload is exactly the propagated error. -/
inductive InvokeError (ε : Type) where
  | emptyBuffer
  | fromCallable (e : ε)
  deriving DecidableEq

/-- State of one FunctionBuffer<R(Args...)> instance: the byte content of
the aligned local buffer m_buffer (line 89), the handle m_func (line 95,
true = buffer_address, false = nullptr), and the ghost occupancy flag. -/
structure FunctionBuffer (α ε ρ : Type) where
  m_buffer : FunctionModel α ε ρ
  m_func : Bool
  occupied : Bool

/-- Templated constructor (lines 100-104): placement-new of FunctionModel<T>
at buffer_address, m_func set to the result; the box is occupied. -/
def FunctionBuffer.construct (f : Callable α ε ρ) : FunctionBuffer α ε ρ :=
  ⟨⟨f⟩, true, true⟩

/-- Compile-time acceptance of the templated constructor: its body holds
static_assert(sizeof(FunctionModel<T>) <= MAX_BUFFER_SIZE) on line 103,
so it compiles exactly when the adapter fits. -/
def constructorCompiles (f : Callable α ε ρ) : Bool :=
  decide (f.sizeofModel ≤ MAX_BUFFER_SIZE)

/-- Compile-time size checks performed by the templated assignment operator
(lines 107-116): its body contains no static_assert and no other size
check, so every T is accepted. -/
def assignCompiles (_f : Callable α ε ρ) : Bool :=
  true

/-- Templated assignment operator (lines 107-116): if m_func is non-null it
first runs the virtual destructor of the current occupant, then
placement-news FunctionModel<T> at buffer_address and stores the handle.
Returns the new state and the lifetime events in program order. -/
def FunctionBuffer.assign (b : FunctionBuffer α ε ρ) (f : Callable α ε ρ) :
    FunctionBuffer α ε ρ × List Event :=
  (⟨⟨f⟩, true, true⟩,
   (if b.m_func then [Event.dtor b.m_buffer.m_functor.id] else [])
     ++ [Event.placed f.id])

/-- Call operator (lines 119-125): when m_func is null it throws
runtime_error before touching any member, otherwise it dispatches through
the handle into FunctionModel and forwards whatever that returns or
raises. Returns the outcome together with the post-call state. -/
def FunctionBuffer.call (b : FunctionBuffer α ε ρ) (a : α) :
    Except (InvokeError ε) ρ × FunctionBuffer α ε ρ :=
  if b.m_func = false then (Except.error InvokeError.emptyBuffer, b)
  else ((b.m_buffer.call a).mapError InvokeError.fromCallable, b)

/-- Destructor of the box (lines 128-133): runs the virtual destructor of
the occupant exactly when m_func is non-null. Returns the events. -/
def FunctionBuffer.destroy (b : FunctionBuffer α ε ρ) : List Event :=
  if b.m_func then [Event.dtor b.m_buffer.m_functor.id] else []

/-- Copy assignment operator (lines 143-156), as selected for a const
source: destroys the current occupant when m_func is non-null, then
std::copy duplicates the 40 source bytes into the own buffer and m_func
is set to the own buffer_address unconditionally, with no test of the
source handle. A byte duplicate of a live (trivially copyable) occupant
is a live occupant, and of a vacated buffer is no occupant, so the
destination occupancy equals the source occupancy. -/
def FunctionBuffer.copyAssign (b other : FunctionBuffer α ε ρ) :
    FunctionBuffer α ε ρ × List Event :=
  (⟨other.m_buffer, true, other.occupied⟩,
   if b.m_func then [Event.dtor b.m_buffer.m_functor.id] else [])

/-- Move constructor (lines 159-164): std::copy duplicates the 40 source
bytes into the own buffer, m_func is set to the own buffer_address
unconditionally, the source handle is nulled, and no destructor runs.
The occupant, if any, relocates to the destination. Returns the
destination, the updated source, and the events. -/
def FunctionBuffer.moveConstruct (other : FunctionBuffer α ε ρ) :
    FunctionBuffer α ε ρ × FunctionBuffer α ε ρ × List Event :=
  (⟨other.m_buffer, true, other.occupied⟩,
   ⟨other.m_buffer, false, false⟩,
   [])

/-- Move assignment operator (lines 167-176) for distinct operands: destroys
the current occupant when m_func is non-null, then proceeds as the move
constructor. -/
def FunctionBuffer.moveAssign (b other : FunctionBuffer α ε ρ) :
    FunctionBuffer α ε ρ × FunctionBuffer α ε ρ × List Event :=
  (⟨other.m_buffer, true, other.occupied⟩,
   ⟨other.m_buffer, false, false⟩,
   if b.m_func then [Event.dtor b.m_buffer.m_functor.id] else [])

/-- Move assignment where source and destination alias, b = std::move(b),
traced line by line on the single object (lines 167-176): if m_func is
non-null the own occupant is destroyed (one dtor run); std::copy over an
identical source and destination range leaves the bytes unchanged;
m_func is set to buffer_address; then other.m_func = nullptr writes the
same member, so the final handle is null. Nothing is re-placed, so the
buffer is not occupied afterwards (unchanged when no dtor ran). -/
def FunctionBuffer.selfMoveAssign (b : FunctionBuffer α ε ρ) :
    FunctionBuffer α ε ρ × List Event :=
  (⟨b.m_buffer, false, if b.m_func then false else b.occupied⟩,
   if b.m_func then [Event.dtor b.m_buffer.m_functor.id] else [])

/-- Conversion to bool (lines 179-181): m_func != nullptr. -/
def FunctionBuffer.operatorBool (b : FunctionBuffer α ε ρ) : Bool :=
  b.m_func

/-- The invariant stated by the spec: the handle is non-null exactly when a
live adapter object currently occupies the buffer. -/
def handleInvariant (b : FunctionBuffer α ε ρ) : Bool :=
  b.m_func == b.occupied

namespace LValuePath

/-- Value category of the argument handed to the templated constructor
(lines 100-104), which takes T&& with T deduced. -/
inductive ArgCategory (α ε ρ : Type) where
  | lvalue (addr : Nat)
  | rvalue (f : Callable α ε ρ)

/-- What FunctionModel<T> stores, following template argument deduction on
T&& at lines 100-104 with no decay applied: for an rvalue argument T
deduces to the object type and m_functor (line 65) is an own value,
move-constructed through std::forward; for an lvalue argument T deduces
to an lvalue reference type, so m_functor is of reference type and binds
to the caller object at its address, with no copy made. -/
inductive StoredFunctor (α ε ρ : Type) where
  | ownValue (f : Callable α ε ρ)
  | ref (addr : Nat)

/-- The caller environment: which callable value currently lives at each
caller-side address. -/
def Env (α ε ρ : Type) := Nat → Callable α ε ρ

/-- Content placed into the buffer by the templated constructor for each
value category of its argument. -/
def constructFromArg : ArgCategory α ε ρ → StoredFunctor α ε ρ
  | ArgCategory.rvalue f => StoredFunctor.ownValue f
  | ArgCategory.lvalue addr => StoredFunctor.ref addr

/-- Dispatch through the stored functor: an own value is applied directly; a
stored reference reads the caller object as it is at call time. -/
def invokeStored (env : Env α ε ρ) (s : StoredFunctor α ε ρ) (a : α) :
    Except ε ρ :=
  match s with
  | StoredFunctor.ownValue f => f.fn a
  | StoredFunctor.ref addr => (env addr).fn a

end LValuePath

/-- Sample callable from the spec scenario: a lambda capturing three ints
summing to 10, returning captured_sum + arg; adapter footprint within
capacity (vptr plus three ints, padded). -/
def sumCallable : Callable Nat Unit Nat :=
  ⟨fun a => Except.ok (10 + a), 1, 24⟩

/-- Sample callable from the spec copy scenario: x doubled. -/
def doubleCallable : Callable Nat Unit Nat :=
  ⟨fun a => Except.ok (2 * a), 2, 16⟩

/-- Sample callable whose adapter footprint, 48 bytes, exceeds the 40-byte
capacity. -/
def bigCallable : Callable Nat Unit Nat :=
  ⟨fun a => Except.ok a, 4, 48⟩

/-- Sample callable that raises an error derived from its argument. -/
def throwingCallable : Callable Nat Nat Nat :=
  ⟨fun a => Except.error (a + 100), 5, 16⟩

/-- Sample callable adding one, standing for the caller object. -/
def incCallable : Callable Nat Unit Nat :=
  ⟨fun a => Except.ok (a + 1), 6, 16⟩

/-- Sample callable adding two, standing for the caller object after it was
replaced or mutated. -/
def plusTwoCallable : Callable Nat Unit Nat :=
  ⟨fun a => Except.ok (a + 2), 7, 16⟩

/-- An empty box over the throwing callable type: the moved-from source of a
move construction. -/
def emptySample : FunctionBuffer Nat Nat Nat :=
  (FunctionBuffer.construct throwingCallable).moveConstruct.2.1

/-- An empty box over Unit-error callables: the moved-from source of a move
construction. -/
def emptySampleU : FunctionBuffer Nat Unit Nat :=
  (FunctionBuffer.construct doubleCallable).moveConstruct.2.1

/-- Caller environment before any change: the caller object at address 0
adds one. -/
def envA : LValuePath.Env Nat Unit Nat := fun _ => incCallable

/-- Caller environment after the caller object at address 0 was replaced by
one that adds two. -/
def envB : LValuePath.Env Nat Unit Nat := fun _ => plusTwoCallable

/-- C1: for every callable f whose adapter fits in the capacity, building a
FunctionBuffer from f and then invoking it with arguments a yields
exactly what f applied to a yields, values and raised errors alike. -/
theorem construct_then_call_agrees (f : Callable α ε ρ) (a : α)
    (hfit : constructorCompiles f = true) :
    ((FunctionBuffer.construct f).call a).1
      = (f.fn a).mapError InvokeError.fromCallable := by
  simp [FunctionBuffer.call, FunctionBuffer.construct, FunctionModel.call]

/-- Witness for C1 at the spec scenario: captures summing to 10, argument 5,
result 15. -/
theorem construct_then_call_agrees_witness :
    constructorCompiles sumCallable = true ∧
    ((FunctionBuffer.construct sumCallable).call 5).1
      = (sumCallable.fn 5).mapError InvokeError.fromCallable ∧
    ((FunctionBuffer.construct sumCallable).call 5).1 = Except.ok 15 :=
  ⟨by decide, construct_then_call_agrees sumCallable 5 (by decide), rfl⟩

/-- C2: invoking a box whose handle is null yields the empty-callable error,
and an error raised by the wrapped callable during a non-empty
invocation reaches the caller unchanged, with nothing added by the
buffer. -/
theorem empty_call_error_and_propagation (b c : FunctionBuffer α ε ρ)
    (a : α) (e : ε) (hb : b.m_func = false) (hc : c.m_func = true)
    (he : c.m_buffer.m_functor.fn a = Except.error e) :
    (b.call a).1 = Except.error InvokeError.emptyBuffer ∧
    (c.call a).1 = Except.error (InvokeError.fromCallable e) := by
  constructor
  · simp [FunctionBuffer.call, hb]
  · simp [FunctionBuffer.call, FunctionModel.call, Except.mapError, hc, he]

/-- Witness for C2: a moved-from box raises the empty error at argument 5,
and a box holding the throwing callable propagates its error 105. -/
theorem empty_call_error_and_propagation_witness :
    emptySample.m_func = false ∧
    (FunctionBuffer.construct throwingCallable).m_func = true ∧
    (FunctionBuffer.construct throwingCallable).m_buffer.m_functor.fn 5
      = Except.error 105 ∧
    ((emptySample.call 5).1 = Except.error InvokeError.emptyBuffer ∧
     ((FunctionBuffer.construct throwingCallable).call 5).1
       = Except.error (InvokeError.fromCallable 105)) :=
  ⟨rfl, rfl, rfl,
   empty_call_error_and_propagation emptySample
     (FunctionBuffer.construct throwingCallable) 5 105 rfl rfl rfl⟩

/-- C3 (supporting evaluation of the copy assignment path, lines 143-156,
the one copy operation whose body compiles): copy-assigning from a box
holding the doubling callable duplicates the source buffer content into
the destination, and both boxes, invoked independently with 7, return
14. The copy constructor itself (lines 136-140) is ill-formed when
instantiated and is recorded as a code bug, not modelled here. -/
theorem copy_assign_duplicates_buffer :
    ((FunctionBuffer.construct sumCallable).copyAssign
        (FunctionBuffer.construct doubleCallable)).1.m_buffer
      = (FunctionBuffer.construct doubleCallable).m_buffer ∧
    (((FunctionBuffer.construct sumCallable).copyAssign
        (FunctionBuffer.construct doubleCallable)).1.call 7).1
      = Except.ok 14 ∧
    ((FunctionBuffer.construct doubleCallable).call 7).1 = Except.ok 14 :=
  ⟨rfl, rfl, rfl⟩

/-- C4 (code bug): the templated constructor rejects the oversized callable
at compile time through its static_assert, but the templated assignment
operator performs no compile-time size check at all and accepts the same
callable, contradicting the claim that both operations are rejected at
build time. -/
theorem assign_lacks_capacity_check :
    constructorCompiles bigCallable = false ∧
    assignCompiles bigCallable = true :=
  ⟨by decide, rfl⟩

/-- C5 (code bug): move-constructing twice from the same source reaches a
state that violates the handle invariant: after the first move the
source is empty, and the second move from that empty source yields a
destination whose handle is non-null while no live adapter occupies its
buffer. -/
theorem move_from_empty_breaks_invariant :
    (FunctionBuffer.moveConstruct
      (FunctionBuffer.construct doubleCallable).moveConstruct.2.1).1.m_func
        = true ∧
    (FunctionBuffer.moveConstruct
      (FunctionBuffer.construct doubleCallable).moveConstruct.2.1).1.occupied
        = false ∧
    handleInvariant
      (FunctionBuffer.moveConstruct
        (FunctionBuffer.construct doubleCallable).moveConstruct.2.1).1
        = false :=
  ⟨rfl, rfl, rfl⟩

/-- C6: move construction from a non-empty box yields a destination whose
invocation agrees with what the source would have returned before the
move, runs no destructor, nulls the source handle, and the moved-from
source raises the empty error when invoked. -/
theorem move_construct_transfers (b : FunctionBuffer α ε ρ) (a : α)
    (h : b.m_func = true) :
    (b.moveConstruct.1.call a).1 = (b.call a).1 ∧
    b.moveConstruct.2.1.m_func = false ∧
    b.moveConstruct.2.2 = [] ∧
    (b.moveConstruct.2.1.call a).1 = Except.error InvokeError.emptyBuffer := by
  refine ⟨?_, rfl, rfl, ?_⟩
  · simp [FunctionBuffer.call, FunctionBuffer.moveConstruct, h]
  · simp [FunctionBuffer.call, FunctionBuffer.moveConstruct]

/-- Witness for C6 at the box holding the sum callable and argument 5. -/
theorem move_construct_transfers_witness :
    (FunctionBuffer.construct sumCallable).m_func = true ∧
    (((FunctionBuffer.construct sumCallable).moveConstruct.1.call 5).1
        = ((FunctionBuffer.construct sumCallable).call 5).1 ∧
     (FunctionBuffer.construct sumCallable).moveConstruct.2.1.m_func = false ∧
     (FunctionBuffer.construct sumCallable).moveConstruct.2.2 = [] ∧
     ((FunctionBuffer.construct sumCallable).moveConstruct.2.1.call 5).1
        = Except.error InvokeError.emptyBuffer) :=
  ⟨rfl, move_construct_transfers (FunctionBuffer.construct sumCallable) 5 rfl⟩

/-- C7: assigning a callable into a non-empty box runs the destructor of the
previous occupant exactly once, strictly before the new adapter is
placed; assigning into an empty box runs no destructor. -/
theorem assign_destroys_previous_first (b c : FunctionBuffer α ε ρ)
    (f : Callable α ε ρ) (hb : b.m_func = true) (hc : c.m_func = false) :
    (b.assign f).2 = [Event.dtor b.m_buffer.m_functor.id, Event.placed f.id] ∧
    (c.assign f).2 = [Event.placed f.id] := by
  constructor
  · simp [FunctionBuffer.assign, hb]
  · simp [FunctionBuffer.assign, hc]

/-- Witness for C7: assigning the sum callable over the doubling callable
destroys occupant 2 then places 1; assigning into a moved-from box only
places. -/
theorem assign_destroys_previous_first_witness :
    (FunctionBuffer.construct doubleCallable).m_func = true ∧
    emptySampleU.m_func = false ∧
    (((FunctionBuffer.construct doubleCallable).assign sumCallable).2
        = [Event.dtor 2, Event.placed 1] ∧
     (emptySampleU.assign sumCallable).2 = [Event.placed 1]) :=
  ⟨rfl, rfl,
   assign_destroys_previous_first (FunctionBuffer.construct doubleCallable)
     emptySampleU sumCallable rfl rfl⟩

/-- C8 (code bug): constructing from an lvalue stores a reference to the
caller object, not an own value, so the buffer behavior is not
independent of that object: with the caller object at address 0 adding
one, invocation with 5 yields 6, and after the caller object is replaced
by one adding two, the same stored functor yields 7. -/
theorem lvalue_construction_not_independent :
    LValuePath.invokeStored envA
        (LValuePath.constructFromArg
          (LValuePath.ArgCategory.lvalue 0 : LValuePath.ArgCategory Nat Unit Nat)) 5
      = Except.ok 6 ∧
    LValuePath.invokeStored envB
        (LValuePath.constructFromArg
          (LValuePath.ArgCategory.lvalue 0 : LValuePath.ArgCategory Nat Unit Nat)) 5
      = Except.ok 7 :=
  ⟨rfl, rfl⟩

/-- C9: self-move-assignment of a non-empty box runs the destructor of the
held callable exactly once and leaves the box empty: its boolean
conversion is false, invoking it raises the empty error, and its
teardown runs no further destructor. -/
theorem self_move_assign_empties (b : FunctionBuffer α ε ρ) (a : α)
    (h : b.m_func = true) :
    b.selfMoveAssign.2 = [Event.dtor b.m_buffer.m_functor.id] ∧
    b.selfMoveAssign.1.operatorBool = false ∧
    (b.selfMoveAssign.1.call a).1 = Except.error InvokeError.emptyBuffer ∧
    b.selfMoveAssign.1.destroy = [] := by
  refine ⟨?_, rfl, ?_, ?_⟩
  · simp [FunctionBuffer.selfMoveAssign, h]
  · simp [FunctionBuffer.call, FunctionBuffer.selfMoveAssign]
  · simp [FunctionBuffer.destroy, FunctionBuffer.selfMoveAssign]

/-- Witness for C9 at the box holding the sum callable and argument 3. -/
theorem self_move_assign_empties_witness :
    (FunctionBuffer.construct sumCallable).m_func = true ∧
    ((FunctionBuffer.construct sumCallable).selfMoveAssign.2
        = [Event.dtor 1] ∧
     (FunctionBuffer.construct sumCallable).selfMoveAssign.1.operatorBool
        = false ∧
     ((FunctionBuffer.construct sumCallable).selfMoveAssign.1.call 3).1
        = Except.error InvokeError.emptyBuffer ∧
     (FunctionBuffer.construct sumCallable).selfMoveAssign.1.destroy = []) :=
  ⟨rfl, self_move_assign_empties (FunctionBuffer.construct sumCallable) 3 rfl⟩

/-- C10: a failed invocation of an empty box raises the empty error and
leaves the state unchanged, so a later assignment followed by an
invocation behaves exactly as it would on the box without the failed
call. -/
theorem empty_call_preserves_state (b : FunctionBuffer α ε ρ)
    (f : Callable α ε ρ) (a a2 : α) (h : b.m_func = false) :
    (b.call a).1 = Except.error InvokeError.emptyBuffer ∧
    (b.call a).2 = b ∧
    (((b.call a).2.assign f).1.call a2).1 = ((b.assign f).1.call a2).1 := by
  refine ⟨?_, ?_, ?_⟩ <;> simp [FunctionBuffer.call, h]

/-- Witness for C10 on a moved-from box, assigning the sum callable and
invoking with 2. -/
theorem empty_call_preserves_state_witness :
    emptySampleU.m_func = false ∧
    ((emptySampleU.call 1).1 = Except.error InvokeError.emptyBuffer ∧
     (emptySampleU.call 1).2 = emptySampleU ∧
     (((emptySampleU.call 1).2.assign sumCallable).1.call 2).1
        = ((emptySampleU.assign sumCallable).1.call 2).1) :=
  ⟨rfl, empty_call_preserves_state emptySampleU sumCallable 1 2 rfl⟩

end FunctionBufferSpec
